import Mathlib

/-!
# Verification of the pitch-shifter real-time streaming pipeline

Shallow embedding of `src/EntryPoint.cpp` (a PortAudio + SoundTouch
real-time pitch shifter).  Audio samples travel through the program as C
`float` values; the embedding models them as exact rationals (`ℚ`), and
16-bit driver samples as `ℤ`.  The external collaborators (PortAudio
driver, SoundTouch engine) are modelled as oracles: the engine's drain
output is an arbitrary `received` count together with the sample values it
wrote, and stream opening is an arbitrary function from the requested
sample format to a `PaError`.
-/

namespace PitchShifter

/-- The two sample formats the program uses (`paFloat32` / `paInt16`). -/
inductive PaSampleFormat
  | paFloat32
  | paInt16
  deriving DecidableEq, Repr

/-- `CallbackData` from `EntryPoint.cpp` lines 8-13, minus the opaque
SoundTouch `HANDLE` (the engine is modelled as an oracle argument of the
callback instead). -/
structure CallbackData where
  format : PaSampleFormat
  channels : Nat
  deriving DecidableEq, Repr

/-- Return codes a PortAudio callback may hand back to the driver. -/
inductive PaCallbackResult
  | paContinue
  | paComplete
  | paAbort
  deriving DecidableEq, Repr

/-- A driver-side interleaved buffer, viewed through the cast the callback
applies to the `void*` pointer: `(const float*)` in Float32 mode,
`(const int16_t*)` in Fixed16 mode.  Memory is modelled as a total index
function, matching pointer indexing. -/
inductive DriverBuf
  | f32 (mem : Nat → ℚ)
  | i16 (mem : Nat → ℤ)

/-- Driver-side output buffer produced by the callback, in the active
format. -/
inductive OutBuf
  | f32 (samples : List ℚ)
  | i16 (samples : List ℤ)

/-- Fixed16 → Normalized conversion, `EntryPoint.cpp` line 46:
`inFloat[i] = in[i] / 32768.0f`. -/
def toNormalized (s : ℤ) : ℚ := (s : ℚ) / 32768

/-- The clamp applied on the Fixed16 output path, lines 76-79:
`if (sample > 1.0f) sample = 1.0f; if (sample < -1.0f) sample = -1.0f;`. -/
def clamp (x : ℚ) : ℚ := if 1 < x then 1 else if x < -1 then -1 else x

/-- Truncation toward zero, the semantics of the C cast
`(int16_t)(float)` on an in-range value. -/
def ratTrunc (q : ℚ) : ℤ := if 0 ≤ q then ⌊q⌋ else ⌈q⌉

/-- Normalized → Fixed16 conversion, lines 75-80: clamp to `[-1, 1]`,
multiply by `32767.0f`, truncate toward zero. -/
def toFixed16 (x : ℚ) : ℤ := ratTrunc (clamp x * 32767)

/-- Construction of the normalized input buffer `inFloat`, lines 27-49:
`std::vector<float> inFloat(n)` value-initializes to zero; the conversion
loop overwrites it only when the input pointer is non-null.  The driver
contract guarantees the buffer kind matches the active format; on a
mismatch (unreachable) the buffer is left in its zero-initialized state. -/
def mkInFloat (fmt : PaSampleFormat) (input : Option DriverBuf) (n : Nat) :
    List ℚ :=
  match input with
  | none => List.replicate n 0
  | some buf =>
    match fmt, buf with
    | .paFloat32, .f32 mem => (List.range n).map mem
    | .paInt16, .i16 mem => (List.range n).map fun i => toNormalized (mem i)
    | _, _ => List.replicate n 0

/-- What the SoundTouch engine's `soundtouch_receiveSamples` call did:
it returned `received` frames and wrote the samples `samples 0`,
`samples 1`, … into the first `received * channels` slots of the output
scratch buffer. -/
structure EngineDrain where
  received : Nat
  samples : Nat → ℚ

/-- The `outFloat` buffer after lines 27-62: value-initialized to zero,
the first `received * channels` entries overwritten by the engine drain,
and the explicit padding loop (lines 59-62) zeroing every entry from index
`received * channels` up. -/
def mkOutFloat (received framesPerBuffer channels : Nat)
    (drained : Nat → ℚ) : List ℚ :=
  (List.range (framesPerBuffer * channels)).map
    fun i => if i < received * channels then drained i else 0

/-- Output conversion, lines 64-82: Float32 mode is a plain
`std::copy`; Fixed16 mode applies clamp-then-quantize per sample. -/
def convertOut (fmt : PaSampleFormat) (outFloat : List ℚ) : OutBuf :=
  match fmt with
  | .paFloat32 => .f32 outFloat
  | .paInt16 => .i16 (outFloat.map toFixed16)

/-- The observable effects of one callback invocation: the sample list
submitted to the engine via `soundtouch_putSamples` (`none` when the
`!inFloat.empty()` guard skipped the call), the driver output buffer, and
the callback return code. -/
structure CallbackResult where
  fed : Option (List ℚ)
  output : OutBuf
  retcode : PaCallbackResult

/-- `audioCallback`, lines 15-85, as a pure function of the callback data,
the (nullable) driver input buffer, the frame count, and the engine drain
oracle. -/
def audioCallback (data : CallbackData) (input : Option DriverBuf)
    (framesPerBuffer : Nat) (drain : EngineDrain) : CallbackResult :=
  let channels := data.channels
  let n := framesPerBuffer * channels
  let inFloat := mkInFloat data.format input n
  let fed := if inFloat.isEmpty then none else some inFloat
  let outFloat := mkOutFloat drain.received framesPerBuffer channels drain.samples
  { fed := fed
    output := convertOut data.format outFloat
    retcode := .paContinue }

/-- The device-capability record `PaDeviceInfo`, restricted to the fields
`main` reads after device selection. -/
structure PaDeviceInfo where
  maxInputChannels : ℤ
  maxOutputChannels : ℤ
  defaultSampleRate : ℚ
  defaultLowInputLatency : ℚ
  defaultLowOutputLatency : ℚ
  deriving DecidableEq, Repr

/-- Per-side input channel resolution, line 140:
`inChannels = (maxInputChannels >= 2 ? 2 : (maxInputChannels > 0 ? 1 : 0))`. -/
def inChannelsOf (info : PaDeviceInfo) : Nat :=
  if 2 ≤ info.maxInputChannels then 2
  else if 0 < info.maxInputChannels then 1 else 0

/-- Per-side output channel resolution, line 141. -/
def outChannelsOf (info : PaDeviceInfo) : Nat :=
  if 2 ≤ info.maxOutputChannels then 2
  else if 0 < info.maxOutputChannels then 1 else 0

/-- `PaStreamParameters` as filled in at lines 150-161 and 170-172 /
190-192 (the `hostApiSpecificStreamInfo = nullptr` field is omitted). -/
structure PaStreamParameters where
  device : Nat
  channelCount : Nat
  sampleFormat : PaSampleFormat
  suggestedLatency : ℚ
  deriving DecidableEq, Repr

/-- One `Pa_OpenStream` call as issued by `main`: the two parameter
blocks plus the shared rate and buffer size. -/
structure OpenAttempt where
  inParams : PaStreamParameters
  outParams : PaStreamParameters
  sampleRate : ℚ
  framesPerBuffer : Nat
  deriving DecidableEq, Repr

/-- The PortAudio error values `main` distinguishes: `paNoError`,
`paSampleFormatNotSupported`, and everything else. -/
inductive PaError
  | paNoError
  | paSampleFormatNotSupported
  | otherError (code : ℤ)
  deriving DecidableEq, Repr

/-- How the modelled portion of `main` ends. -/
inductive MainOutcome
  | unsupportedCapability
  | streamOpenFailure (e : PaError)
  | running
  deriving DecidableEq, Repr

/-- Observable trace of `main` from line 133 on: the negotiated values,
whether a SoundTouch engine instance was ever created (and with which
channel count), every `Pa_OpenStream` call issued, and the callback
configuration a successfully opened stream runs with. -/
structure MainTrace where
  sampleRate : ℚ
  inChannels : Nat
  outChannels : Nat
  engineCreated : Bool
  engineChannels : Option Nat
  openAttempts : List OpenAttempt
  cbData : Option CallbackData
  outcome : MainOutcome

/-- `main`, lines 133-214, after device selection and validation: sample
rate and channel negotiation, the zero-channel bailout, SoundTouch engine
setup, the Float32 open attempt, the single Fixed16 retry on
`paSampleFormatNotSupported`, and the fatal path for any other failure.
`openStream` is the driver oracle for `Pa_OpenStream`; the two calls
`main` can issue differ only in the sample format. -/
def runMain (inInfo outInfo : PaDeviceInfo) (inputDevice outputDevice : Nat)
    (openStream : PaSampleFormat → PaError) : MainTrace :=
  let sampleRate := min inInfo.defaultSampleRate outInfo.defaultSampleRate
  let inChannels := inChannelsOf inInfo
  let outChannels := outChannelsOf outInfo
  if inChannels = 0 ∨ outChannels = 0 then
    { sampleRate := sampleRate, inChannels := inChannels
      outChannels := outChannels, engineCreated := false
      engineChannels := none, openAttempts := [], cbData := none
      outcome := .unsupportedCapability }
  else
    let inputParams : PaSampleFormat → PaStreamParameters := fun fmt =>
      { device := inputDevice, channelCount := inChannels
        sampleFormat := fmt
        suggestedLatency := inInfo.defaultLowInputLatency }
    let outputParams : PaSampleFormat → PaStreamParameters := fun fmt =>
      { device := outputDevice, channelCount := outChannels
        sampleFormat := fmt
        suggestedLatency := outInfo.defaultLowOutputLatency }
    let attempt : PaSampleFormat → OpenAttempt := fun fmt =>
      { inParams := inputParams fmt, outParams := outputParams fmt
        sampleRate := sampleRate, framesPerBuffer := 512 }
    match openStream .paFloat32 with
    | .paNoError =>
      { sampleRate := sampleRate, inChannels := inChannels
        outChannels := outChannels, engineCreated := true
        engineChannels := some inChannels
        openAttempts := [attempt .paFloat32]
        cbData := some { format := .paFloat32, channels := inChannels }
        outcome := .running }
    | .paSampleFormatNotSupported =>
      match openStream .paInt16 with
      | .paNoError =>
        { sampleRate := sampleRate, inChannels := inChannels
          outChannels := outChannels, engineCreated := true
          engineChannels := some inChannels
          openAttempts := [attempt .paFloat32, attempt .paInt16]
          cbData := some { format := .paInt16, channels := inChannels }
          outcome := .running }
      | e =>
        { sampleRate := sampleRate, inChannels := inChannels
          outChannels := outChannels, engineCreated := true
          engineChannels := some inChannels
          openAttempts := [attempt .paFloat32, attempt .paInt16]
          cbData := none
          outcome := .streamOpenFailure e }
    | e =>
      { sampleRate := sampleRate, inChannels := inChannels
        outChannels := outChannels, engineCreated := true
        engineChannels := some inChannels
        openAttempts := [attempt .paFloat32]
        cbData := none
        outcome := .streamOpenFailure e }

/-- An all-zero driver input buffer of the given format, used to compare a
null input pointer against genuine silence. -/
def zeroBuf : PaSampleFormat → DriverBuf
  | .paFloat32 => .f32 fun _ => 0
  | .paInt16 => .i16 fun _ => 0

/-- A concrete input device whose input side resolves to 2 channels
(`maxInputChannels = 2`). -/
def stereoInDev : PaDeviceInfo :=
  { maxInputChannels := 2, maxOutputChannels := 0
    defaultSampleRate := 48000, defaultLowInputLatency := 0
    defaultLowOutputLatency := 0 }

/-- A concrete output device whose output side resolves to 1 channel
(`maxOutputChannels = 1`). -/
def monoOutDev : PaDeviceInfo :=
  { maxInputChannels := 0, maxOutputChannels := 1
    defaultSampleRate := 44100, defaultLowInputLatency := 0
    defaultLowOutputLatency := 0 }

/-- A concrete output device with 2 output channels. -/
def stereoOutDev : PaDeviceInfo :=
  { maxInputChannels := 0, maxOutputChannels := 2
    defaultSampleRate := 44100, defaultLowInputLatency := 0
    defaultLowOutputLatency := 0 }

/-- A concrete output device with no usable output channels. -/
def deadOutDev : PaDeviceInfo :=
  { maxInputChannels := 0, maxOutputChannels := 0
    defaultSampleRate := 44100, defaultLowInputLatency := 0
    defaultLowOutputLatency := 0 }

/-- A driver oracle that accepts every open request. -/
def acceptAll : PaSampleFormat → PaError := fun _ => .paNoError

/-- A driver oracle that rejects Float32 with
`paSampleFormatNotSupported` and accepts Fixed16. -/
def rejectFloat32 : PaSampleFormat → PaError
  | .paFloat32 => .paSampleFormatNotSupported
  | .paInt16 => .paNoError

/-! ## Helper lemmas about the format converter -/

theorem clamp_of_mem {x : ℚ} (h1 : -1 ≤ x) (h2 : x ≤ 1) : clamp x = x := by
  unfold clamp
  rw [if_neg (by linarith), if_neg (by linarith)]

theorem clamp_of_gt {x : ℚ} (h : 1 < x) : clamp x = 1 := by
  unfold clamp
  rw [if_pos h]

theorem clamp_of_lt {x : ℚ} (h : x < -1) : clamp x = -1 := by
  unfold clamp
  rw [if_neg (by linarith), if_pos h]

/-! ## Claim theorems -/

/-- C5: the Normalized → Fixed16 conversion clamps before quantizing: on
`[-1, 1]` the result lies in `[-32767, 32767]`, above `1` it is exactly
`32767`, and below `-1` it is exactly `-32767`. -/
theorem toFixed16_clamped_range (x : ℚ) :
    (-1 ≤ x → x ≤ 1 → -32767 ≤ toFixed16 x ∧ toFixed16 x ≤ 32767) ∧
    (1 < x → toFixed16 x = 32767) ∧
    (x < -1 → toFixed16 x = -32767) := by
  refine ⟨fun h1 h2 => ?_, fun h => ?_, fun h => ?_⟩
  · rw [toFixed16, clamp_of_mem h1 h2, ratTrunc]
    split
    · constructor
      · exact Int.le_floor.mpr (by push_cast; linarith)
      · have : ⌊x * 32767⌋ < 32768 := Int.floor_lt.mpr (by push_cast; nlinarith)
        omega
    · rename_i hq
      constructor
      · have : -32768 < ⌈x * 32767⌉ := Int.lt_ceil.mpr (by push_cast; nlinarith)
        omega
      · exact Int.ceil_le.mpr (by push_cast; linarith)
  · rw [toFixed16, clamp_of_gt h, ratTrunc, if_pos (by norm_num)]
    norm_num
  · rw [toFixed16, clamp_of_lt h, ratTrunc, if_neg (by norm_num)]
    rw [show ((-1 : ℚ) * 32767) = ((-32767 : ℤ) : ℚ) by norm_num,
      Int.ceil_intCast]

/-- C5 witness: concrete boundary inputs `3/2` and `-3/2` clamp to exactly
`±32767`, and `1/2` stays in range. -/
theorem toFixed16_clamped_range_witness :
    (1 < (3/2 : ℚ) ∧ toFixed16 (3/2) = 32767) ∧
    ((-3/2 : ℚ) < -1 ∧ toFixed16 (-3/2) = -32767) ∧
    (-1 ≤ (1/2 : ℚ) ∧ (1/2 : ℚ) ≤ 1 ∧
      -32767 ≤ toFixed16 (1/2) ∧ toFixed16 (1/2) ≤ 32767) := by
  refine ⟨⟨by norm_num, (toFixed16_clamped_range (3/2)).2.1 (by norm_num)⟩,
    ⟨by norm_num, (toFixed16_clamped_range (-3/2)).2.2 (by norm_num)⟩,
    by norm_num, by norm_num, ?_, ?_⟩
  · exact ((toFixed16_clamped_range (1/2)).1 (by norm_num) (by norm_num)).1
  · exact ((toFixed16_clamped_range (1/2)).1 (by norm_num) (by norm_num)).2

/-- C3: for every 16-bit sample `s ∈ [-32768, 32767]`, normalizing
(`s / 32768`) and converting back (clamp, `× 32767`, truncate toward
zero) lands within one quantization step of `s`. -/
theorem roundtrip_within_one (s : ℤ) (h1 : -32768 ≤ s) (h2 : s ≤ 32767) :
    |toFixed16 (toNormalized s) - s| ≤ 1 := by
  have h1q : (-32768 : ℚ) ≤ (s : ℚ) := by exact_mod_cast h1
  have h2q : (s : ℚ) ≤ 32767 := by exact_mod_cast h2
  have hc1 : (-1 : ℚ) ≤ (s : ℚ) / 32768 := by
    rw [le_div_iff₀ (by norm_num : (0:ℚ) < 32768)]
    linarith
  have hc2 : (s : ℚ) / 32768 ≤ 1 := by
    rw [div_le_one (by norm_num : (0:ℚ) < 32768)]
    linarith
  have hq : (s : ℚ) / 32768 * 32767 = (s : ℚ) - (s : ℚ) / 32768 := by ring
  rw [toNormalized, toFixed16, clamp_of_mem hc1 hc2, ratTrunc, hq]
  rcases le_or_lt 0 s with hs | hs
  · have hs0 : (0 : ℚ) ≤ (s : ℚ) := by exact_mod_cast hs
    have hd0 : (0 : ℚ) ≤ (s : ℚ) / 32768 := by positivity
    rw [if_pos (by linarith)]
    have hub : ⌊(s : ℚ) - (s : ℚ) / 32768⌋ < s + 1 :=
      Int.floor_lt.mpr (by push_cast; linarith)
    have hlb : s - 1 ≤ ⌊(s : ℚ) - (s : ℚ) / 32768⌋ :=
      Int.le_floor.mpr (by push_cast; linarith)
    rw [abs_le]
    omega
  · have hs0 : (s : ℚ) < 0 := by exact_mod_cast hs
    have hd0 : (s : ℚ) / 32768 < 0 := by
      rw [div_neg_iff]
      right
      exact ⟨hs0, by norm_num⟩
    have hneg : (s : ℚ) - (s : ℚ) / 32768 < 0 := by
      have hfac : (s : ℚ) - (s : ℚ) / 32768 = (s : ℚ) * (32767 / 32768) := by
        ring
      rw [hfac]
      exact mul_neg_of_neg_of_pos hs0 (by norm_num)
    rw [if_neg (not_le.mpr hneg)]
    have hub : ⌈(s : ℚ) - (s : ℚ) / 32768⌉ ≤ s + 1 :=
      Int.ceil_le.mpr (by push_cast; linarith)
    have hlb : s - 1 < ⌈(s : ℚ) - (s : ℚ) / 32768⌉ :=
      Int.lt_ceil.mpr (by push_cast; linarith)
    rw [abs_le]
    omega

/-- C3 witness: the round trip at the asymmetric extreme `s = -32768`
lands on `-32767`, one step away. -/
theorem roundtrip_within_one_witness :
    -32768 ≤ (-32768 : ℤ) ∧ (-32768 : ℤ) ≤ 32767 ∧
    |toFixed16 (toNormalized (-32768)) - (-32768)| ≤ 1 :=
  ⟨by norm_num, by norm_num,
    roundtrip_within_one (-32768) (by norm_num) (by norm_num)⟩

theorem mkOutFloat_getD (received framesPerBuffer channels : Nat)
    (drained : Nat → ℚ) (i : Nat) (hi : i < framesPerBuffer * channels) :
    (mkOutFloat received framesPerBuffer channels drained).getD i 0
      = if i < received * channels then drained i else 0 := by
  unfold mkOutFloat
  rw [List.getD_eq_getElem?_getD, List.getElem?_map, List.getElem?_range hi]
  rfl

/-- C2: after draining `received ≤ framesPerBuffer` frames, the callback's
normalized output buffer holds the engine-drained sample at every
interleaved index below `received * channels` and exactly zero at every
index from `received * channels` up; `received = 0` gives an all-zero
buffer and `received = framesPerBuffer` gives no padding.  The driver
output is this buffer put through the format conversion. -/
theorem callback_pads_with_silence (data : CallbackData)
    (input : Option DriverBuf) (framesPerBuffer : Nat) (drain : EngineDrain)
    (i : Nat) (hr : drain.received ≤ framesPerBuffer)
    (hi : i < framesPerBuffer * data.channels) :
    (audioCallback data input framesPerBuffer drain).output
      = convertOut data.format
          (mkOutFloat drain.received framesPerBuffer data.channels
            drain.samples) ∧
    (i < drain.received * data.channels →
      (mkOutFloat drain.received framesPerBuffer data.channels
        drain.samples).getD i 0 = drain.samples i) ∧
    (drain.received * data.channels ≤ i →
      (mkOutFloat drain.received framesPerBuffer data.channels
        drain.samples).getD i 0 = 0) ∧
    (drain.received = 0 →
      (mkOutFloat drain.received framesPerBuffer data.channels
        drain.samples).getD i 0 = 0) ∧
    (drain.received = framesPerBuffer →
      (mkOutFloat drain.received framesPerBuffer data.channels
        drain.samples).getD i 0 = drain.samples i) := by
  refine ⟨rfl, fun h => ?_, fun h => ?_, fun h => ?_, fun h => ?_⟩
  · rw [mkOutFloat_getD _ _ _ _ _ hi, if_pos h]
  · rw [mkOutFloat_getD _ _ _ _ _ hi, if_neg (by omega)]
  · rw [mkOutFloat_getD _ _ _ _ _ hi, h]
    simp
  · rw [h, mkOutFloat_getD _ _ _ _ _ hi, if_pos hi]

/-- C2 witness: with 2 frames of 1 channel and 1 frame drained, index 0
carries the drained sample and index 1 is padded to zero. -/
theorem callback_pads_with_silence_witness :
    (1 : Nat) ≤ 2 ∧ (0 : Nat) < 2 * 1 ∧ (1 : Nat) < 2 * 1 ∧
    (mkOutFloat 1 2 1 (fun _ => 7)).getD 0 0 = 7 ∧
    (mkOutFloat 1 2 1 (fun _ => 7)).getD 1 0 = 0 := by
  refine ⟨by norm_num, by norm_num, by norm_num, ?_, ?_⟩
  · exact (callback_pads_with_silence ⟨.paFloat32, 1⟩ none 2 ⟨1, fun _ => 7⟩
      0 (by norm_num) (by norm_num)).2.1 (by norm_num)
  · exact (callback_pads_with_silence ⟨.paFloat32, 1⟩ none 2 ⟨1, fun _ => 7⟩
      1 (by norm_num) (by norm_num)).2.2.1 (by norm_num)

/-- C9: the callback returns `paContinue` to the driver on every
invocation, whatever the input, format, channel count, or engine drain. -/
theorem callback_always_continues (data : CallbackData)
    (input : Option DriverBuf) (framesPerBuffer : Nat)
    (drain : EngineDrain) :
    (audioCallback data input framesPerBuffer drain).retcode
      = .paContinue := rfl

/-- C10: in Float32 mode the driver output is the normalized buffer
verbatim — no clamping, out-of-range engine samples pass through
unchanged; the clamped quantization (`toFixed16`) is applied only on the
Fixed16 path. -/
theorem float32_output_is_verbatim_copy (data : CallbackData)
    (input : Option DriverBuf) (framesPerBuffer : Nat)
    (drain : EngineDrain) :
    (data.format = .paFloat32 →
      (audioCallback data input framesPerBuffer drain).output
        = .f32 (mkOutFloat drain.received framesPerBuffer data.channels
            drain.samples)) ∧
    (data.format = .paInt16 →
      (audioCallback data input framesPerBuffer drain).output
        = .i16 ((mkOutFloat drain.received framesPerBuffer data.channels
            drain.samples).map toFixed16)) := by
  constructor
  · intro h
    simp only [audioCallback, h, convertOut]
  · intro h
    simp only [audioCallback, h, convertOut]

/-- C10 witness: a drained sample of `3/2` (outside `[-1, 1]`) reaches
the Float32 driver buffer unchanged. -/
theorem float32_output_is_verbatim_copy_witness :
    (audioCallback ⟨.paFloat32, 1⟩ none 1 ⟨1, fun _ => 3/2⟩).output
      = .f32 [3/2] := by
  rw [(float32_output_is_verbatim_copy ⟨.paFloat32, 1⟩ none 1
    ⟨1, fun _ => 3/2⟩).1 rfl]
  norm_num [mkOutFloat, List.range_succ]

theorem mkInFloat_none (fmt : PaSampleFormat) (n : Nat) :
    mkInFloat fmt none n = List.replicate n 0 := rfl

theorem mkInFloat_zeroBuf (fmt : PaSampleFormat) (n : Nat) :
    mkInFloat fmt (some (zeroBuf fmt)) n = List.replicate n 0 := by
  cases fmt <;>
    simp [mkInFloat, zeroBuf, toNormalized, List.map_const]

/-- C8: a null driver input pointer is never read: the normalized input
buffer stays at its zero-initialized `framesPerBuffer * channels`
zero samples (in both formats), the invocation is observationally
identical to one given an explicit all-zero input buffer, and when the
buffer is nonempty this all-zero buffer is still submitted to the
engine. -/
theorem null_input_is_silence (data : CallbackData)
    (framesPerBuffer : Nat) (drain : EngineDrain) :
    mkInFloat data.format none (framesPerBuffer * data.channels)
      = List.replicate (framesPerBuffer * data.channels) 0 ∧
    audioCallback data none framesPerBuffer drain
      = audioCallback data (some (zeroBuf data.format)) framesPerBuffer
          drain ∧
    (0 < framesPerBuffer * data.channels →
      (audioCallback data none framesPerBuffer drain).fed
        = some (List.replicate (framesPerBuffer * data.channels) 0)) := by
  refine ⟨mkInFloat_none _ _, ?_, fun hn => ?_⟩
  · simp only [audioCallback, mkInFloat_none, mkInFloat_zeroBuf]
  · have hne :
        ¬((List.replicate (framesPerBuffer * data.channels)
          (0:ℚ)).isEmpty = true) := by
      simp only [List.isEmpty_iff, List.replicate_eq_nil_iff]
      omega
    simp only [audioCallback, mkInFloat_none, if_neg hne]

/-- C8 witness: a stereo Fixed16 invocation with one frame and a null
input still feeds two zero samples to the engine. -/
theorem null_input_is_silence_witness :
    0 < 1 * 2 ∧
    (audioCallback ⟨.paInt16, 2⟩ none 1 ⟨0, fun _ => 0⟩).fed
      = some (List.replicate (1 * 2) 0) :=
  ⟨by norm_num,
    (null_input_is_silence ⟨.paInt16, 2⟩ 1 ⟨0, fun _ => 0⟩).2.2
      (by norm_num)⟩

/-- C6: the negotiated sample rate is the minimum of the two devices'
default sample rates, and every `Pa_OpenStream` request carries it. -/
theorem negotiated_sampleRate_is_min (inInfo outInfo : PaDeviceInfo)
    (inputDevice outputDevice : Nat)
    (openStream : PaSampleFormat → PaError) :
    (runMain inInfo outInfo inputDevice outputDevice openStream).sampleRate
      = min inInfo.defaultSampleRate outInfo.defaultSampleRate ∧
    ∀ a ∈ (runMain inInfo outInfo inputDevice outputDevice
        openStream).openAttempts,
      a.sampleRate
        = min inInfo.defaultSampleRate outInfo.defaultSampleRate := by
  rcases e1 : openStream .paFloat32 with _ | _ | c1 <;>
    rcases e2 : openStream .paInt16 with _ | _ | c2 <;>
      simp only [runMain, e1, e2] <;> split <;> simp_all

/-- C6 witness: devices defaulting to 48000 and 44100 negotiate 44100,
also on the issued open request. -/
theorem negotiated_sampleRate_is_min_witness :
    (runMain stereoInDev stereoOutDev 0 1 acceptAll).sampleRate
      = min stereoInDev.defaultSampleRate stereoOutDev.defaultSampleRate ∧
    (runMain stereoInDev stereoOutDev 0 1 acceptAll).sampleRate = 44100 ∧
    ({ inParams := ⟨0, 2, .paFloat32, 0⟩, outParams := ⟨1, 2, .paFloat32, 0⟩
       sampleRate := 44100, framesPerBuffer := 512 } :
        OpenAttempt).sampleRate
      = min stereoInDev.defaultSampleRate stereoOutDev.defaultSampleRate := by
  refine ⟨(negotiated_sampleRate_is_min stereoInDev stereoOutDev 0 1
      acceptAll).1, ?_, ?_⟩
  · rw [(negotiated_sampleRate_is_min stereoInDev stereoOutDev 0 1
      acceptAll).1]
    norm_num [stereoInDev, stereoOutDev, min_def]
  · exact (negotiated_sampleRate_is_min stereoInDev stereoOutDev 0 1
      acceptAll).2 _ (by decide)

/-- C7: when either side resolves to zero usable channels, negotiation
fails with the unsupported-capability outcome, the SoundTouch engine is
never created, and no open request is issued. -/
theorem zero_channels_fail_before_engine (inInfo outInfo : PaDeviceInfo)
    (inputDevice outputDevice : Nat)
    (openStream : PaSampleFormat → PaError)
    (h : inInfo.maxInputChannels ≤ 0 ∨ outInfo.maxOutputChannels ≤ 0) :
    (runMain inInfo outInfo inputDevice outputDevice openStream).outcome
      = .unsupportedCapability ∧
    (runMain inInfo outInfo inputDevice outputDevice
      openStream).engineCreated = false ∧
    (runMain inInfo outInfo inputDevice outputDevice
      openStream).engineChannels = none ∧
    (runMain inInfo outInfo inputDevice outputDevice
      openStream).openAttempts = [] := by
  have hz : inChannelsOf inInfo = 0 ∨ outChannelsOf outInfo = 0 := by
    rcases h with h | h
    · left
      unfold inChannelsOf
      rw [if_neg (by omega), if_neg (by omega)]
    · right
      unfold outChannelsOf
      rw [if_neg (by omega), if_neg (by omega)]
  simp only [runMain, if_pos hz]
  exact ⟨trivial, trivial, trivial, trivial⟩

/-- C7 witness: an output device with `maxOutputChannels = 0` fails
negotiation with no engine and no open attempt. -/
theorem zero_channels_fail_before_engine_witness :
    (deadOutDev.maxOutputChannels ≤ 0) ∧
    (runMain stereoInDev deadOutDev 0 1 acceptAll).outcome
      = .unsupportedCapability ∧
    (runMain stereoInDev deadOutDev 0 1 acceptAll).engineCreated = false ∧
    (runMain stereoInDev deadOutDev 0 1 acceptAll).openAttempts = [] := by
  have h := zero_channels_fail_before_engine stereoInDev deadOutDev 0 1
    acceptAll (Or.inr (by norm_num [deadOutDev]))
  exact ⟨by norm_num [deadOutDev], h.1, h.2.1, h.2.2.2⟩

/-- C4: the open protocol tries Float32 first; exactly one Fixed16 retry
happens precisely when the first attempt fails with
`paSampleFormatNotSupported`; a successful retry leaves the callback
running in Fixed16; any other first-attempt failure, or any retry
failure, ends in the fatal open-failure outcome with no further
attempts. -/
theorem format_fallback_protocol (inInfo outInfo : PaDeviceInfo)
    (inputDevice outputDevice : Nat)
    (openStream : PaSampleFormat → PaError)
    (hin : inChannelsOf inInfo ≠ 0) (hout : outChannelsOf outInfo ≠ 0)
    (t : MainTrace)
    (ht : t = runMain inInfo outInfo inputDevice outputDevice openStream) :
    ((t.openAttempts.map fun a =>
        (a.inParams.sampleFormat, a.outParams.sampleFormat))
      = [(.paFloat32, .paFloat32)] ∨
     (t.openAttempts.map fun a =>
        (a.inParams.sampleFormat, a.outParams.sampleFormat))
      = [(.paFloat32, .paFloat32), (.paInt16, .paInt16)]) ∧
    (t.openAttempts.length = 2 ↔
      openStream .paFloat32 = .paSampleFormatNotSupported) ∧
    (openStream .paFloat32 = .paNoError →
      t.outcome = .running ∧
      t.cbData = some ⟨.paFloat32, inChannelsOf inInfo⟩) ∧
    (openStream .paFloat32 = .paSampleFormatNotSupported →
      (openStream .paInt16 = .paNoError →
        t.outcome = .running ∧
        t.cbData = some ⟨.paInt16, inChannelsOf inInfo⟩) ∧
      (openStream .paInt16 ≠ .paNoError →
        t.outcome = .streamOpenFailure (openStream .paInt16))) ∧
    (∀ c, openStream .paFloat32 = .otherError c →
      t.outcome = .streamOpenFailure (.otherError c) ∧
      t.openAttempts.length = 1) := by
  subst ht
  have hz : ¬(inChannelsOf inInfo = 0 ∨ outChannelsOf outInfo = 0) := by
    tauto
  rcases e1 : openStream .paFloat32 with _ | _ | c1 <;>
    rcases e2 : openStream .paInt16 with _ | _ | c2 <;>
      simp_all [runMain, if_neg hz]

/-- C4 witness: a driver that rejects Float32 with
`paSampleFormatNotSupported` and accepts Fixed16 produces a running
stream whose callback format is Fixed16, after exactly two attempts. -/
theorem format_fallback_protocol_witness :
    inChannelsOf stereoInDev ≠ 0 ∧ outChannelsOf stereoOutDev ≠ 0 ∧
    (runMain stereoInDev stereoOutDev 0 1 rejectFloat32).openAttempts.length
      = 2 ∧
    (runMain stereoInDev stereoOutDev 0 1 rejectFloat32).outcome
      = .running ∧
    (runMain stereoInDev stereoOutDev 0 1 rejectFloat32).cbData
      = some ⟨.paInt16, 2⟩ := by
  have h := format_fallback_protocol stereoInDev stereoOutDev 0 1
    rejectFloat32 (by decide) (by decide) _ rfl
  have hretry := h.2.2.2.1 (by decide)
  have hrun := hretry.1 (by decide)
  refine ⟨by decide, by decide, h.2.1.mpr (by decide), hrun.1, ?_⟩
  rw [hrun.2]
  decide

/-- C1 counterexample: with an input device resolving to 2 channels and
an output device resolving to 1 (both nonzero), the engine and callback
are configured with 2 channels — not `min 2 1 = 1` — and the input and
output streams are opened with different channel counts (2 and 1). -/
theorem engine_channels_not_min_counterexample :
    inChannelsOf stereoInDev = 2 ∧ outChannelsOf monoOutDev = 1 ∧
    (runMain stereoInDev monoOutDev 0 1 acceptAll).engineChannels
      = some 2 ∧
    ¬((runMain stereoInDev monoOutDev 0 1 acceptAll).engineChannels
      = some (min (inChannelsOf stereoInDev) (outChannelsOf monoOutDev))) ∧
    ((runMain stereoInDev monoOutDev 0 1 acceptAll).openAttempts.map
        fun a => (a.inParams.channelCount, a.outParams.channelCount))
      = [(2, 1)] := by
  decide

/-- C1 amended: the channel count configured on the engine and used for
the callback is the input side's resolved value `inChannels` (not the
minimum of the two sides), while each stream is opened with its own
side's resolved count — the input stream with `inChannels`, the output
stream with `outChannels`. -/
theorem engine_uses_input_side_channels (inInfo outInfo : PaDeviceInfo)
    (inputDevice outputDevice : Nat)
    (openStream : PaSampleFormat → PaError)
    (hin : inChannelsOf inInfo ≠ 0) (hout : outChannelsOf outInfo ≠ 0) :
    (runMain inInfo outInfo inputDevice outputDevice
      openStream).engineChannels = some (inChannelsOf inInfo) ∧
    (∀ c ∈ (runMain inInfo outInfo inputDevice outputDevice
        openStream).cbData, c.channels = inChannelsOf inInfo) ∧
    ∀ a ∈ (runMain inInfo outInfo inputDevice outputDevice
        openStream).openAttempts,
      a.inParams.channelCount = inChannelsOf inInfo ∧
      a.outParams.channelCount = outChannelsOf outInfo := by
  have hz : ¬(inChannelsOf inInfo = 0 ∨ outChannelsOf outInfo = 0) := by
    tauto
  rcases e1 : openStream .paFloat32 with _ | _ | c1 <;>
    rcases e2 : openStream .paInt16 with _ | _ | c2 <;>
      simp_all [runMain, if_neg hz]

/-- C1 amended witness: on the 2-in/1-out pair the engine gets 2
channels, the input stream 2, the output stream 1. -/
theorem engine_uses_input_side_channels_witness :
    inChannelsOf stereoInDev ≠ 0 ∧ outChannelsOf monoOutDev ≠ 0 ∧
    (runMain stereoInDev monoOutDev 0 1 acceptAll).engineChannels
      = some (inChannelsOf stereoInDev) ∧
    ({ inParams := ⟨0, 2, .paFloat32, 0⟩
       outParams := ⟨1, 1, .paFloat32, 0⟩
       sampleRate := 44100, framesPerBuffer := 512 } :
        OpenAttempt).inParams.channelCount = inChannelsOf stereoInDev ∧
    ({ inParams := ⟨0, 2, .paFloat32, 0⟩
       outParams := ⟨1, 1, .paFloat32, 0⟩
       sampleRate := 44100, framesPerBuffer := 512 } :
        OpenAttempt).outParams.channelCount = outChannelsOf monoOutDev := by
  have h := engine_uses_input_side_channels stereoInDev monoOutDev 0 1
    acceptAll (by decide) (by decide)
  have ha := h.2.2
    ({ inParams := ⟨0, 2, .paFloat32, 0⟩
       outParams := ⟨1, 1, .paFloat32, 0⟩
       sampleRate := 44100, framesPerBuffer := 512 } : OpenAttempt)
    (by decide)
  exact ⟨by decide, by decide, h.1, ha.1, ha.2⟩

end PitchShifter
